import Mathlib

/-!
Verification of the character-image upload pipeline of the `gyun` backend.

The definitions below are a shallow embedding of the relevant JavaScript
source files:

* `src/services/bunnyStorageService.js` (remote CDN backend),
* the local storage service (`processAndSaveCharacterImage`, fallback),
* `src/controllers/characterController.js` (create / update / delete),
* the admin controller (`deleteCharacter`),
* `src/controllers/carasoulController.js` and the media controller
  (`listImages` / `listVideos`).

I/O effects (HTTP PUT to the remote storage, local disk writes, temp-file
deletion) are modelled as an explicit trace of events; the success or failure
of the two storage backends and of the image decode step are oracle booleans
in `AttemptEnv`, and each call to JavaScript's `Date.now()` is an explicit
`Nat` parameter.
-/

namespace Gyun

/-- Decimal value of a big-endian list of digit characters; used to state and
prove facts about `Nat.repr`, which renders the `Date.now()` timestamps that
the code embeds into storage keys and ids. -/
def charsVal (cs : List Char) : Nat :=
  cs.foldl (fun v c => 10 * v + (c.toNat - 48)) 0

/-- One observable side effect of the upload pipeline: an HTTP PUT issued to
the remote storage zone, a write under the local static directory, or the
deletion of a staged temporary upload file. -/
inductive Ev where
  | remotePut (key : String)
  | localWrite (key : String)
  | unlinkTemp (path : String)
deriving DecidableEq, Repr

/-- Recognizes temp-file deletion events in a trace. -/
def isUnlinkEv : Ev → Bool
  | Ev.unlinkTemp _ => true
  | _ => false

/-- JavaScript `s.startsWith(p)`: character-level test on the underlying
character lists (kernel-reducible, unlike the byte-position machinery of
Lean's own `String.startsWith`). -/
def strStartsWith (s p : String) : Bool :=
  s.data.take p.data.length == p.data

/-- JavaScript `s.endsWith(p)`: character-level suffix test. -/
def strEndsWith (s p : String) : Bool :=
  s.data.drop (s.data.length - p.data.length) == p.data

/-- JavaScript `s.toLowerCase()`, restricted to the ASCII range the extension
comparisons exercise. -/
def lowerStr (s : String) : String :=
  ⟨s.data.map Char.toLower⟩

/-- `BunnyStorageService.getCdnUrl`: drops a leading slash from the file path
and prefixes the configured CDN base URL. -/
def getCdnUrl (cdnBaseUrl filePath : String) : String :=
  let normalizedPath := if strStartsWith filePath "/" then filePath.drop 1 else filePath
  cdnBaseUrl ++ "/" ++ normalizedPath

/-- `LocalStorageService.getPublicUrl`: drops a leading slash and prefixes the
static-serving route `/images`. -/
def localPublicUrl (filePath : String) : String :=
  let normalizedPath := if strStartsWith filePath "/" then filePath.drop 1 else filePath
  "/images" ++ "/" ++ normalizedPath

/-- File extension of the output codec: both services always encode to WebP
(`.webp({ quality })`). -/
def webpExt : String := ".webp"

/-- Content type sent with the remote upload (`image/webp`). -/
def uploadContentType : String := "image/webp"

/-- The `imageType` string chosen by both storage services. -/
def roleName (isBackground : Bool) : String :=
  if isBackground then "background" else "profile"

/-- The storage key built by both services:
`characters/(characterId)/(imageType)-(Date.now()).webp`. -/
def imageKey (characterId : String) (isBackground : Bool) (t : Nat) : String :=
  "characters/" ++ characterId ++ "/" ++ roleName isBackground ++ "-" ++ Nat.repr t ++ webpExt

/-- Oracle for one upload attempt chain: whether sharp decodes/encodes the
source image, whether the remote PUT succeeds, whether the local disk write
succeeds, and the values `Date.now()` returns inside the remote-side and the
local-side service calls. -/
structure AttemptEnv where
  decodeOk : Bool
  remoteOk : Bool
  localOk : Bool
  tRemote : Nat
  tLocal : Nat
deriving DecidableEq, Repr

/-- `BunnyStorageService.processAndUploadCharacterImage`: sharp-processes the
image (failure aborts before any PUT), builds the key with `Date.now()`, and
PUTs the buffer; on a 2xx it returns the CDN URL, otherwise it throws. -/
def processAndUploadCharacterImage (cdnBaseUrl characterId : String)
    (isBackground : Bool) (env : AttemptEnv) : Option String × List Ev :=
  if env.decodeOk then
    let key := imageKey characterId isBackground env.tRemote
    if env.remoteOk then (some (getCdnUrl cdnBaseUrl key), [Ev.remotePut key])
    else (none, [Ev.remotePut key])
  else (none, [])

/-- `LocalStorageService.processAndSaveCharacterImage`: sharp-processes the
image again from the staged source, builds a fresh key with `Date.now()`, and
writes the buffer under the local base directory, returning `/images/(key)`. -/
def processAndSaveCharacterImage (characterId : String)
    (isBackground : Bool) (env : AttemptEnv) : Option String × List Ev :=
  if env.decodeOk then
    let key := imageKey characterId isBackground env.tLocal
    if env.localOk then (some (localPublicUrl key), [Ev.localWrite key])
    else (none, [Ev.localWrite key])
  else (none, [])

/-- The controller's fallback chain (`characterController.js`, both in create
and update): try Bunny first; on any thrown error fall back to the local
service and prefix the server base URL to its relative result. -/
def uploadWithFallback (cdnBaseUrl baseUrl characterId : String)
    (isBackground : Bool) (env : AttemptEnv) : Option String × List Ev :=
  match processAndUploadCharacterImage cdnBaseUrl characterId isBackground env with
  | (some url, evs) => (some url, evs)
  | (none, evs1) =>
    match processAndSaveCharacterImage characterId isBackground env with
    | (some u, evs2) => (some (baseUrl ++ u), evs1 ++ evs2)
    | (none, evs2) => (none, evs1 ++ evs2)

/-- The persisted `Character` document (`src/models/Character.js`): the schema
has no automatic timestamps; `createdAt` and `updatedAt` merely default to
`Date.now` when the document is created. -/
structure Character where
  id : String
  name : String
  description : String
  personality : String
  imageUrl : String
  backgroundImageUrl : Option String
  accentColor : String
  textColor : String
  age : String
  location : String
  responseTime : String
  traits : List String
  interests : List String
  isActive : Bool
  createdAt : Nat
  updatedAt : Nat
deriving DecidableEq, Repr

/-- JavaScript `x || d` on strings: the empty string (and an absent field,
which we also model as `""`) is falsy and selects the default. -/
def jsOrStr (v d : String) : String := if v = "" then d else v

/-- A create-character request after multer staging and the controller's
traits/interests parsing: text fields are `""` when absent or empty, `image`
and `backgroundImage` are the staged temp-file paths when present. -/
structure CreateReq where
  name : String
  description : String
  personality : String
  accentColor : String
  textColor : String
  age : String
  location : String
  responseTime : String
  traits : Option (List String)
  interests : Option (List String)
  image : Option String
  backgroundImage : Option String
deriving DecidableEq, Repr

/-- Outcome of `createCharacter`: HTTP status, the saved document (if any),
and the trace of storage / temp-file events. -/
structure CreateResult where
  status : Nat
  persisted : Option Character
  trace : List Ev
deriving DecidableEq, Repr

/-- `characterController.createCharacter`: validate text fields, then the
profile file; upload the profile image with fallback (both backends failing
returns 500 before any cleanup); optionally upload the background image with
fallback (both failing is swallowed); unlink the staged temp files; then save
the document. `pEnv` and `bEnv` are the oracles for the profile-image and the
background-image attempt chains, `tSave` is `Date.now` at document creation. -/
def createCharacter (cdnBaseUrl baseUrl : String) (req : CreateReq)
    (characterId : String) (pEnv bEnv : AttemptEnv) (tSave : Nat) : CreateResult :=
  if req.name = "" ∨ req.description = "" ∨ req.personality = "" then
    { status := 400, persisted := none, trace := [] }
  else
    match req.image with
    | none => { status := 400, persisted := none, trace := [] }
    | some imagePath =>
      match uploadWithFallback cdnBaseUrl baseUrl characterId false pEnv with
      | (none, evs) => { status := 500, persisted := none, trace := evs }
      | (some imageUrl, evs1) =>
        let bg : Option String × List Ev :=
          match req.backgroundImage with
          | none => (none, [])
          | some _ =>
            match uploadWithFallback cdnBaseUrl baseUrl characterId true bEnv with
            | (some u, evs2) => (some u, evs2)
            | (none, evs2) => (none, evs2)
        let unlinks : List Ev :=
          Ev.unlinkTemp imagePath ::
            (match req.backgroundImage with
             | some bgPath => [Ev.unlinkTemp bgPath]
             | none => [])
        { status := 201
          persisted := some {
            id := characterId
            name := req.name
            description := req.description
            personality := req.personality
            imageUrl := imageUrl
            backgroundImageUrl := bg.1
            accentColor := jsOrStr req.accentColor "#ec4899"
            textColor := jsOrStr req.textColor "#ffffff"
            age := req.age
            location := req.location
            responseTime := jsOrStr req.responseTime "< 1 min"
            traits := req.traits.getD []
            interests := req.interests.getD []
            isActive := true
            createdAt := tSave
            updatedAt := tSave }
          trace := evs1 ++ bg.2 ++ unlinks }

/-- An update-character request, same conventions as `CreateReq`. -/
structure UpdateReq where
  name : String
  description : String
  personality : String
  accentColor : String
  textColor : String
  age : String
  location : String
  responseTime : String
  traits : Option (List String)
  interests : Option (List String)
  image : Option String
  backgroundImage : Option String
deriving DecidableEq, Repr

/-- Outcome of the update / delete handlers. -/
structure UpdateResult where
  status : Nat
  character : Option Character
  trace : List Ev
deriving DecidableEq, Repr

/-- The guarded text-field assignments of `updateCharacter` (lines 344-353):
`if (x) { character.x = x; }` for each field; the guards act on disjoint
fields, so the sequential mutations equal this simultaneous record update.
`traits` / `interests` are arrays; a parsed array (even `[]`) is truthy, so
they are modelled as `Option (List String)` with `none` for absent/falsy. -/
def applyTextFields (req : UpdateReq) (c : Character) : Character :=
  { c with
    name := if req.name = "" then c.name else req.name
    description := if req.description = "" then c.description else req.description
    personality := if req.personality = "" then c.personality else req.personality
    accentColor := if req.accentColor = "" then c.accentColor else req.accentColor
    textColor := if req.textColor = "" then c.textColor else req.textColor
    age := if req.age = "" then c.age else req.age
    location := if req.location = "" then c.location else req.location
    responseTime := if req.responseTime = "" then c.responseTime else req.responseTime
    traits := match req.traits with | none => c.traits | some ts => ts
    interests := match req.interests with | none => c.interests | some vs => vs }

/-- Second half of `updateCharacter`: the optional background-image replace
(failure of both backends is swallowed, the staged file is unlinked in a
`finally`), then `updatedAt = Date.now()` and the save. -/
def updateBgAndSave (cdnBaseUrl baseUrl : String) (req : UpdateReq) (c : Character)
    (evs0 : List Ev) (bEnv : AttemptEnv) (tNow : Nat) : UpdateResult :=
  let step : Character × List Ev :=
    match req.backgroundImage with
    | none => (c, [])
    | some bgPath =>
      match uploadWithFallback cdnBaseUrl baseUrl c.id true bEnv with
      | (some url, evs) => ({ c with backgroundImageUrl := some url }, evs ++ [Ev.unlinkTemp bgPath])
      | (none, evs) => (c, evs ++ [Ev.unlinkTemp bgPath])
  { status := 200
    character := some { step.1 with updatedAt := tNow }
    trace := evs0 ++ step.2 }

/-- `characterController.updateCharacter`: look the character up, merge the
truthy text fields, replace the profile image when a file is present (both
backends failing returns 500; the staged file is unlinked in a `finally`),
then handle the background image and save with a fresh `updatedAt`. -/
def updateCharacter (cdnBaseUrl baseUrl : String) (req : UpdateReq)
    (found : Option Character) (pEnv bEnv : AttemptEnv) (tNow : Nat) : UpdateResult :=
  match found with
  | none => { status := 404, character := none, trace := [] }
  | some c0 =>
    let c1 := applyTextFields req c0
    match req.image with
    | none => updateBgAndSave cdnBaseUrl baseUrl req c1 [] bEnv tNow
    | some imgPath =>
      match uploadWithFallback cdnBaseUrl baseUrl c1.id false pEnv with
      | (some url, evs) =>
        updateBgAndSave cdnBaseUrl baseUrl req { c1 with imageUrl := url }
          (evs ++ [Ev.unlinkTemp imgPath]) bEnv tNow
      | (none, evs) =>
        { status := 500, character := none, trace := evs ++ [Ev.unlinkTemp imgPath] }

/-- `characterController.deleteCharacter` (public soft delete): flips
`isActive` and refreshes `updatedAt` before saving. -/
def deleteCharacter (found : Option Character) (tNow : Nat) : UpdateResult :=
  match found with
  | none => { status := 404, character := none, trace := [] }
  | some c => { status := 200, character := some { c with isActive := false, updatedAt := tNow }, trace := [] }

/-- The admin controller's `deleteCharacter` (soft delete): flips `isActive`
and saves, without touching `updatedAt`. -/
def adminDeleteCharacter (found : Option Character) : UpdateResult :=
  match found with
  | none => { status := 404, character := none, trace := [] }
  | some c => { status := 200, character := some { c with isActive := false }, trace := [] }

/-- `generateShortId`: concatenates `Math.floor(100000 + Math.random()*900000)`
(the drawn value is the `randomNum` parameter, always in 100000..999999) with
`Date.now() % 10000`. -/
def generateShortId (randomNum t : Nat) : String :=
  Nat.repr randomNum ++ Nat.repr (t % 10000)

/-- A raw listing entry returned by the Bunny storage API. -/
structure BunnyFile where
  ObjectName : String
  IsDirectory : Bool
deriving DecidableEq, Repr

/-- The carousel controller's allowed extensions. -/
def imageExtensions : List String := [".jpg", ".jpeg", ".png", ".gif"]

/-- `CarasoulController.listImages`: keeps non-directory entries whose
lower-cased name ends with one of `imageExtensions`, and maps each to
`getCdnUrl ("carasouls/" + name)`. -/
def listImages (cdnBaseUrl : String) (files : List BunnyFile) : List String :=
  (files.filter (fun f =>
      f.IsDirectory == false &&
        imageExtensions.any (fun ext => strEndsWith (lowerStr f.ObjectName) ext))).map
    (fun f => getCdnUrl cdnBaseUrl ("carasouls/" ++ f.ObjectName))

/-- `MediaController.listVideos`: keeps non-directory entries whose name ends
with `.mp4` (case-sensitively), and maps each to `getCdnUrl ("videos/" + name)`. -/
def listVideos (cdnBaseUrl : String) (files : List BunnyFile) : List String :=
  (files.filter (fun f => f.IsDirectory == false && strEndsWith f.ObjectName ".mp4")).map
    (fun f => getCdnUrl cdnBaseUrl ("videos/" ++ f.ObjectName))

/-- Listing behaviour as worded by the spec (for the refinement comparison):
exactly the non-directory entries whose extension, compared
case-insensitively, is in the caller's allowed set, in listing order, each
mapped to the CDN base URL concatenated with the prefix and the object name. -/
def listingSpec (cdnBaseUrl : String) (allowedExts : List String) (pfx : String)
    (files : List BunnyFile) : List String :=
  (files.filter (fun f =>
      !f.IsDirectory &&
        allowedExts.any (fun ext => strEndsWith (lowerStr f.ObjectName) (lowerStr ext)))).map
    (fun f => cdnBaseUrl ++ "/" ++ pfx ++ f.ObjectName)

/-- Case-sensitive variant of `listingSpec`, matching what `listVideos`
actually implements. -/
def listingSpecCS (cdnBaseUrl : String) (allowedExts : List String) (pfx : String)
    (files : List BunnyFile) : List String :=
  (files.filter (fun f =>
      !f.IsDirectory && allowedExts.any (fun ext => strEndsWith f.ObjectName ext))).map
    (fun f => cdnBaseUrl ++ "/" ++ pfx ++ f.ObjectName)

/-- Resize strategies passed to sharp by the two services: `fit: 'cover'`
for profile images, `fit: 'inside'` for background images. -/
inductive Fit where
  | cover
  | inside
deriving DecidableEq, Repr

/-- Pixel dimensions of an image, modelled over ℚ so the scaling geometry is
exact. -/
structure Dim where
  w : ℚ
  h : ℚ
deriving DecidableEq, Repr

/-- JavaScript `x || d` on numeric options: absent (modelled `none`) and the
falsy 0 select the default. -/
def jsOrQ (v : Option ℚ) (d : ℚ) : ℚ :=
  match v with
  | none => d
  | some x => if x = 0 then d else x

/-- Model of the sharp library's resize geometry as configured by the
services: `cover` produces exactly the target box; `inside` scales by the
smaller of the two axis ratios, clamped to 1 when `withoutEnlargement` is
set, preserving the aspect ratio exactly. -/
def sharpResize (fit : Fit) (withoutEnlargement : Bool) (tw th : ℚ) (d : Dim) : Dim :=
  match fit with
  | Fit.cover => { w := tw, h := th }
  | Fit.inside =>
    let f := min (tw / d.w) (th / d.h)
    let g := if withoutEnlargement && decide (1 < f) then 1 else f
    { w := d.w * g, h := d.h * g }

/-- The dimension behaviour of `processAndUploadCharacterImage` /
`processAndSaveCharacterImage`: background images use `fit: 'inside'` with
`withoutEnlargement: true` and defaults 1200×800; profile images use
`fit: 'cover'` and defaults 400×400. -/
def transformDims (isBackground : Bool) (ow oh : Option ℚ) (d : Dim) : Dim :=
  if isBackground then
    sharpResize Fit.inside true (jsOrQ ow 1200) (jsOrQ oh 800) d
  else
    sharpResize Fit.cover false (jsOrQ ow 400) (jsOrQ oh 400) d

/-! ### Facts about `Nat.repr`

The storage keys and the short ids embed numbers rendered by `Nat.repr`
(JavaScript template interpolation of `Date.now()` and of the random id
parts). The lemmas below establish that the rendering consists of decimal
digit characters, is never empty, and is injective. -/

theorem digitChar_toNat (m : Nat) (h : m < 10) : (Nat.digitChar m).toNat = m + 48 := by
  interval_cases m <;> decide

theorem digitChar_isDigit (m : Nat) (h : m < 10) : (Nat.digitChar m).isDigit = true := by
  interval_cases m <;> decide

theorem toDigitsCore_append (b fuel : Nat) :
    ∀ (n : Nat) (ds : List Char),
      Nat.toDigitsCore b fuel n ds = Nat.toDigitsCore b fuel n [] ++ ds := by
  induction fuel with
  | zero => intro n ds; simp [Nat.toDigitsCore]
  | succ fuel ih =>
    intro n ds
    simp only [Nat.toDigitsCore]
    by_cases h0 : n / b = 0
    · simp [h0]
    · rw [if_neg h0, if_neg h0, ih (n / b) [Nat.digitChar (n % b)],
        ih (n / b) (Nat.digitChar (n % b) :: ds), List.append_assoc]
      rfl

theorem charsVal_append_singleton (cs : List Char) (c : Char) :
    charsVal (cs ++ [c]) = 10 * charsVal cs + (c.toNat - 48) := by
  simp [charsVal, List.foldl_append]

theorem charsVal_toDigitsCore (fuel : Nat) :
    ∀ n : Nat, n < fuel → charsVal (Nat.toDigitsCore 10 fuel n []) = n := by
  induction fuel with
  | zero => omega
  | succ fuel ih =>
    intro n hn
    simp only [Nat.toDigitsCore]
    by_cases h0 : n / 10 = 0
    · rw [if_pos h0]
      have hm : n % 10 < 10 := Nat.mod_lt _ (by omega)
      simp only [charsVal, List.foldl_cons, List.foldl_nil]
      rw [digitChar_toNat _ hm]
      omega
    · rw [if_neg h0, toDigitsCore_append, charsVal_append_singleton,
        ih (n / 10) (by omega)]
      have hm : n % 10 < 10 := Nat.mod_lt _ (by omega)
      rw [digitChar_toNat _ hm]
      omega

theorem charsVal_repr (n : Nat) : charsVal (Nat.repr n).data = n := by
  have h := charsVal_toDigitsCore (n + 1) n (by omega)
  simpa [Nat.repr, Nat.toDigits, List.asString] using h

theorem natRepr_injective {a b : Nat} (h : Nat.repr a = Nat.repr b) : a = b := by
  have ha := charsVal_repr a
  have hb := charsVal_repr b
  rw [h] at ha
  omega

theorem toDigitsCore_digits (fuel : Nat) :
    ∀ (n : Nat) (ds : List Char), (∀ c ∈ ds, c.isDigit = true) →
      ∀ c ∈ Nat.toDigitsCore 10 fuel n ds, c.isDigit = true := by
  induction fuel with
  | zero => intro n ds hds; simpa [Nat.toDigitsCore] using hds
  | succ fuel ih =>
    intro n ds hds c hc
    have hm : n % 10 < 10 := Nat.mod_lt _ (by omega)
    simp only [Nat.toDigitsCore] at hc
    by_cases h0 : n / 10 = 0
    · rw [if_pos h0] at hc
      rcases List.mem_cons.mp hc with h | h
      · exact h ▸ digitChar_isDigit _ hm
      · exact hds c h
    · rw [if_neg h0] at hc
      refine ih (n / 10) (Nat.digitChar (n % 10) :: ds) ?_ c hc
      intro c' hc'
      rcases List.mem_cons.mp hc' with h | h
      · exact h ▸ digitChar_isDigit _ hm
      · exact hds c' h

theorem natRepr_digits (n : Nat) : ∀ c ∈ (Nat.repr n).data, c.isDigit = true := by
  intro c hc
  refine toDigitsCore_digits (n + 1) n [] (by simp) c ?_
  simpa [Nat.repr, Nat.toDigits, List.asString] using hc

theorem natRepr_ne_nil (n : Nat) : (Nat.repr n).data ≠ [] := by
  simp only [Nat.repr, Nat.toDigits, List.asString, Nat.toDigitsCore]
  by_cases h0 : n / 10 = 0
  · simp [h0]
  · rw [if_neg h0, toDigitsCore_append]
    simp

/-! ### Helper lemmas about the fallback chain -/

theorem uploadWithFallback_none (cdnBaseUrl baseUrl characterId : String)
    (isBackground : Bool) (env : AttemptEnv)
    (h : env.decodeOk = false ∨ (env.remoteOk = false ∧ env.localOk = false)) :
    (uploadWithFallback cdnBaseUrl baseUrl characterId isBackground env).1 = none := by
  obtain ⟨d, r, l, t1, t2⟩ := env
  cases d <;> cases r <;> cases l <;>
    simp_all [uploadWithFallback, processAndUploadCharacterImage, processAndSaveCharacterImage]

theorem uploadWithFallback_some (cdnBaseUrl baseUrl characterId : String)
    (isBackground : Bool) (env : AttemptEnv)
    (h : env.decodeOk = true ∧ (env.remoteOk = true ∨ env.localOk = true)) :
    ∃ u, (uploadWithFallback cdnBaseUrl baseUrl characterId isBackground env).1 = some u := by
  obtain ⟨d, r, l, t1, t2⟩ := env
  cases d <;> cases r <;> cases l <;>
    simp_all [uploadWithFallback, processAndUploadCharacterImage, processAndSaveCharacterImage]

/-! ### Claims -/

/-- C1 (counterexample): when the remote PUT fails at millisecond 1000 and the
local fallback runs at millisecond 1001, the local write does not use the key
the remote attempt used — the key is recomputed with a fresh timestamp, so the
claim "LocalDiskBackend.put is attempted with the same key" is false. -/
theorem C1_counterexample :
    (uploadWithFallback "https://cdn.example.net" "http://localhost:5000" "c1" false
        ⟨true, false, true, 1000, 1001⟩).2 =
      [Ev.remotePut "characters/c1/profile-1000.webp",
       Ev.localWrite "characters/c1/profile-1001.webp"] ∧
    ("characters/c1/profile-1000.webp" : String) ≠ "characters/c1/profile-1001.webp" := by
  decide

/-- C1 (amended): the remote backend is attempted first; on success the remote
CDN URL is returned immediately and no local write happens; only on remote
failure is the local backend attempted — with the same source image and
options, but re-processed and stored under a key recomputed at the
local-side `Date.now()` (equal to the remote key only if both clock reads
coincide) — returning the locally-rooted URL on success. -/
theorem C1_fallback_amended (cdnBaseUrl baseUrl characterId : String) (isBackground : Bool)
    (env : AttemptEnv) (hdec : env.decodeOk = true) :
    (env.remoteOk = true →
      uploadWithFallback cdnBaseUrl baseUrl characterId isBackground env =
        (some (getCdnUrl cdnBaseUrl (imageKey characterId isBackground env.tRemote)),
         [Ev.remotePut (imageKey characterId isBackground env.tRemote)])) ∧
    (env.remoteOk = false → env.localOk = true →
      uploadWithFallback cdnBaseUrl baseUrl characterId isBackground env =
        (some (baseUrl ++ localPublicUrl (imageKey characterId isBackground env.tLocal)),
         [Ev.remotePut (imageKey characterId isBackground env.tRemote),
          Ev.localWrite (imageKey characterId isBackground env.tLocal)])) := by
  obtain ⟨d, r, l, t1, t2⟩ := env
  cases d <;> cases r <;> cases l <;>
    simp_all [uploadWithFallback, processAndUploadCharacterImage, processAndSaveCharacterImage]

/-- C1 (witness): concrete run of the amended theorem with a failing remote
backend and a working local fallback. -/
theorem C1_fallback_witness :
    uploadWithFallback "https://cdn.example.net" "http://localhost:5000" "c1" false
        ⟨true, false, true, 1000, 1001⟩ =
      (some ("http://localhost:5000" ++ localPublicUrl (imageKey "c1" false 1001)),
       [Ev.remotePut (imageKey "c1" false 1000), Ev.localWrite (imageKey "c1" false 1001)]) :=
  (C1_fallback_amended "https://cdn.example.net" "http://localhost:5000" "c1" false
      ⟨true, false, true, 1000, 1001⟩ rfl).2 rfl rfl

/-- C4: a create-character request missing name, description, personality or
the profile image file is rejected with status 400, with an empty storage
trace (no remote PUT, no local write) and nothing persisted. -/
theorem C4_validation_before_storage (cdnBaseUrl baseUrl : String) (req : CreateReq)
    (characterId : String) (pEnv bEnv : AttemptEnv) (tSave : Nat)
    (h : req.name = "" ∨ req.description = "" ∨ req.personality = "" ∨ req.image = none) :
    (createCharacter cdnBaseUrl baseUrl req characterId pEnv bEnv tSave).status = 400 ∧
    (createCharacter cdnBaseUrl baseUrl req characterId pEnv bEnv tSave).trace = [] ∧
    (createCharacter cdnBaseUrl baseUrl req characterId pEnv bEnv tSave).persisted = none := by
  unfold createCharacter
  rcases h with h | h | h | h
  · simp [h]
  · simp [h]
  · simp [h]
  · by_cases hv : req.name = "" ∨ req.description = "" ∨ req.personality = ""
    · simp [hv]
    · simp [hv, h]

/-- C4 (witness): a request with all text fields but no profile image is
rejected with 400 and an empty trace. -/
theorem C4_validation_witness :
    (createCharacter "https://cdn.example.net" "http://localhost:5000"
        ⟨"Test", "d", "p", "", "", "", "", "", none, none, none, none⟩
        "1234560" ⟨true, true, true, 0, 0⟩ ⟨true, true, true, 0, 0⟩ 0).status = 400 ∧
    (createCharacter "https://cdn.example.net" "http://localhost:5000"
        ⟨"Test", "d", "p", "", "", "", "", "", none, none, none, none⟩
        "1234560" ⟨true, true, true, 0, 0⟩ ⟨true, true, true, 0, 0⟩ 0).trace = [] ∧
    (createCharacter "https://cdn.example.net" "http://localhost:5000"
        ⟨"Test", "d", "p", "", "", "", "", "", none, none, none, none⟩
        "1234560" ⟨true, true, true, 0, 0⟩ ⟨true, true, true, 0, 0⟩ 0).persisted = none :=
  C4_validation_before_storage "https://cdn.example.net" "http://localhost:5000"
    ⟨"Test", "d", "p", "", "", "", "", "", none, none, none, none⟩
    "1234560" ⟨true, true, true, 0, 0⟩ ⟨true, true, true, 0, 0⟩ 0
    (Or.inr (Or.inr (Or.inr rfl)))

/-- C5: every storage key has the form
`characters/(ownerId)/(role)-(epochMillis).webp` with role `profile` or
`background` and the extension matching the WebP output codec, and for a
fixed owner and role two computations at different millisecond timestamps
give distinct keys. -/
theorem C5_key_format_and_distinct (characterId : String) (isBackground : Bool)
    (t t1 t2 : Nat) :
    (imageKey characterId isBackground t =
        "characters/" ++ characterId ++ "/" ++ roleName isBackground ++ "-" ++
          Nat.repr t ++ webpExt ∧
      (roleName isBackground = "profile" ∨ roleName isBackground = "background") ∧
      webpExt = ".webp" ∧ uploadContentType = "image/webp") ∧
    (t1 ≠ t2 → imageKey characterId isBackground t1 ≠ imageKey characterId isBackground t2) := by
  refine ⟨⟨rfl, ?_, rfl, rfl⟩, ?_⟩
  · cases isBackground <;> simp [roleName]
  · intro hne heq
    apply hne
    have hd := congrArg String.data heq
    simp only [imageKey, String.data_append, List.append_assoc,
      List.append_cancel_left_eq, List.append_cancel_right_eq] at hd
    have := congrArg charsVal hd
    rwa [charsVal_repr, charsVal_repr] at this

/-- C5 (witness): two concrete timestamps one millisecond apart give distinct
keys. -/
theorem C5_key_witness :
    (1000 : Nat) ≠ 1001 ∧ imageKey "c1" false 1000 ≠ imageKey "c1" false 1001 :=
  ⟨by decide,
   (C5_key_format_and_distinct "c1" false 0 1000 1001).2 (by decide)⟩

/-- C9 (counterexample): two creation operations that draw the same random
six-digit number at timestamps 10000 and 20000 (which agree modulo 10000)
produce the same id, so ids are not globally unique. -/
theorem C9_counterexample :
    generateShortId 123456 10000 = generateShortId 123456 20000 ∧
    (10000 : Nat) ≠ 20000 := by
  decide

/-- C9 (amended): every generated id is a non-empty string of decimal digits,
but global uniqueness does not hold: the id only encodes the random six-digit
draw and `Date.now() % 10000`, so distinct creations can collide. -/
theorem C9_id_digits_amended (randomNum t : Nat) :
    generateShortId randomNum t ≠ "" ∧
    ∀ c ∈ (generateShortId randomNum t).data, c.isDigit = true := by
  constructor
  · intro h
    have hd := congrArg String.data h
    have hnil : (String.data "") = [] := rfl
    simp only [generateShortId, String.data_append, hnil, List.append_eq_nil] at hd
    exact natRepr_ne_nil randomNum hd.1
  · intro c hc
    simp only [generateShortId, String.data_append, List.mem_append] at hc
    rcases hc with h | h
    · exact natRepr_digits _ c h
    · exact natRepr_digits _ c h

/-- C2: when both storage backends fail for the profile image,
`createCharacter` returns 500 without ever unlinking the staged temp file
(the cleanup block sits after the early `return`), while `updateCharacter`
unlinks the staged file in a `finally` even when both backends fail — the
temp file is leaked on the create path, contradicting the spec's "must run
even when both storage attempts fail". -/
theorem C2_create_both_fail_leaks_tempfile :
    ((createCharacter "https://cdn.example.net" "http://localhost:5000"
        ⟨"Test", "d", "p", "", "", "", "", "", none, none, some "/tmp/upload-1", none⟩
        "1234560" ⟨true, false, false, 1000, 1001⟩ ⟨true, true, true, 0, 0⟩ 2000).status = 500 ∧
      (createCharacter "https://cdn.example.net" "http://localhost:5000"
        ⟨"Test", "d", "p", "", "", "", "", "", none, none, some "/tmp/upload-1", none⟩
        "1234560" ⟨true, false, false, 1000, 1001⟩ ⟨true, true, true, 0, 0⟩ 2000).trace.filter
          isUnlinkEv = []) ∧
    (updateCharacter "https://cdn.example.net" "http://localhost:5000"
        ⟨"", "", "", "", "", "", "", "", none, none, some "/tmp/upload-2", none⟩
        (some ⟨"1", "n", "d", "p", "u", none, "a", "t", "", "", "r", [], [], true, 0, 5⟩)
        ⟨true, false, false, 1000, 1001⟩ ⟨true, true, true, 0, 0⟩ 2000).trace.filter
          isUnlinkEv = [Ev.unlinkTemp "/tmp/upload-2"] := by
  decide

/-- C3: during character creation, if both backends fail for the profile
image the handler answers 500 and persists nothing; if the profile image is
stored but both backends fail for the background image, creation still
answers 201 and the persisted record has no `backgroundImageUrl`. -/
theorem C3_profile_mandatory_background_optional (cdnBaseUrl baseUrl : String)
    (req : CreateReq) (characterId imagePath : String) (pEnv bEnv : AttemptEnv) (tSave : Nat)
    (hname : ¬req.name = "") (hdesc : ¬req.description = "") (hpers : ¬req.personality = "")
    (himg : req.image = some imagePath) :
    ((pEnv.decodeOk = false ∨ (pEnv.remoteOk = false ∧ pEnv.localOk = false)) →
      (createCharacter cdnBaseUrl baseUrl req characterId pEnv bEnv tSave).status = 500 ∧
      (createCharacter cdnBaseUrl baseUrl req characterId pEnv bEnv tSave).persisted = none) ∧
    ((pEnv.decodeOk = true ∧ (pEnv.remoteOk = true ∨ pEnv.localOk = true)) →
      (bEnv.decodeOk = false ∨ (bEnv.remoteOk = false ∧ bEnv.localOk = false)) →
      (createCharacter cdnBaseUrl baseUrl req characterId pEnv bEnv tSave).status = 201 ∧
      ∀ c, (createCharacter cdnBaseUrl baseUrl req characterId pEnv bEnv tSave).persisted =
          some c → c.backgroundImageUrl = none) := by
  constructor
  · intro hfail
    have hu := uploadWithFallback_none cdnBaseUrl baseUrl characterId false pEnv hfail
    unfold createCharacter
    rcases hup : uploadWithFallback cdnBaseUrl baseUrl characterId false pEnv with ⟨u, evs⟩
    rw [hup] at hu
    simp only at hu
    subst hu
    simp [hname, hdesc, hpers, himg, hup]
  · intro hok hbfail
    obtain ⟨u, hu⟩ := uploadWithFallback_some cdnBaseUrl baseUrl characterId false pEnv hok
    have hb := uploadWithFallback_none cdnBaseUrl baseUrl characterId true bEnv hbfail
    unfold createCharacter
    rcases hup : uploadWithFallback cdnBaseUrl baseUrl characterId false pEnv with ⟨pu, pevs⟩
    rw [hup] at hu
    simp only at hu
    subst hu
    rcases hbup : uploadWithFallback cdnBaseUrl baseUrl characterId true bEnv with ⟨bu, bevs⟩
    rw [hbup] at hb
    simp only at hb
    subst hb
    cases hbg : req.backgroundImage <;>
      simp [hname, hdesc, hpers, himg, hup, hbup, hbg]

/-- C3 (witness): concrete runs of both halves — a profile image whose
remote and local stores both fail yields 500 with nothing persisted, and a
background image whose stores both fail still yields 201 with an unset
background URL. -/
theorem C3_witness :
    ((createCharacter "https://cdn.example.net" "http://localhost:5000"
        ⟨"Test", "d", "p", "", "", "", "", "", none, none, some "/tmp/a", none⟩
        "1" ⟨true, false, false, 10, 11⟩ ⟨true, true, true, 0, 0⟩ 99).status = 500 ∧
      (createCharacter "https://cdn.example.net" "http://localhost:5000"
        ⟨"Test", "d", "p", "", "", "", "", "", none, none, some "/tmp/a", none⟩
        "1" ⟨true, false, false, 10, 11⟩ ⟨true, true, true, 0, 0⟩ 99).persisted = none) ∧
    ((createCharacter "https://cdn.example.net" "http://localhost:5000"
        ⟨"Test", "d", "p", "", "", "", "", "", none, none, some "/tmp/a", some "/tmp/b"⟩
        "1" ⟨true, true, true, 10, 11⟩ ⟨true, false, false, 20, 21⟩ 99).status = 201 ∧
      ∀ c, (createCharacter "https://cdn.example.net" "http://localhost:5000"
        ⟨"Test", "d", "p", "", "", "", "", "", none, none, some "/tmp/a", some "/tmp/b"⟩
        "1" ⟨true, true, true, 10, 11⟩ ⟨true, false, false, 20, 21⟩ 99).persisted = some c →
          c.backgroundImageUrl = none) :=
  ⟨(C3_profile_mandatory_background_optional "https://cdn.example.net" "http://localhost:5000"
      ⟨"Test", "d", "p", "", "", "", "", "", none, none, some "/tmp/a", none⟩
      "1" "/tmp/a" ⟨true, false, false, 10, 11⟩ ⟨true, true, true, 0, 0⟩ 99
      (by decide) (by decide) (by decide) rfl).1 (Or.inr ⟨rfl, rfl⟩),
   (C3_profile_mandatory_background_optional "https://cdn.example.net" "http://localhost:5000"
      ⟨"Test", "d", "p", "", "", "", "", "", none, none, some "/tmp/a", some "/tmp/b"⟩
      "1" "/tmp/a" ⟨true, true, true, 10, 11⟩ ⟨true, false, false, 20, 21⟩ 99
      (by decide) (by decide) (by decide) rfl).2 ⟨rfl, Or.inl rfl⟩ (Or.inr ⟨rfl, rfl⟩)⟩

/-- Shape of the record stored by `updateBgAndSave`: the input character with
a possibly replaced background URL and a refreshed `updatedAt`. -/
theorem updateBgAndSave_character (cdnBaseUrl baseUrl : String) (req : UpdateReq)
    (c1 : Character) (evs0 : List Ev) (bEnv : AttemptEnv) (tNow : Nat) :
    ∃ bu,
      (updateBgAndSave cdnBaseUrl baseUrl req c1 evs0 bEnv tNow).status = 200 ∧
      (updateBgAndSave cdnBaseUrl baseUrl req c1 evs0 bEnv tNow).character =
        some { c1 with backgroundImageUrl := bu, updatedAt := tNow } ∧
      (req.backgroundImage = none → bu = c1.backgroundImageUrl) := by
  cases hbg : req.backgroundImage with
  | none => exact ⟨c1.backgroundImageUrl, by simp [updateBgAndSave, hbg]⟩
  | some bgPath =>
    rcases hup : uploadWithFallback cdnBaseUrl baseUrl c1.id true bEnv with ⟨u, evs⟩
    cases u with
    | none =>
      exact ⟨c1.backgroundImageUrl, by simp [updateBgAndSave, hbg, hup]⟩
    | some url =>
      exact ⟨some url, by simp [updateBgAndSave, hbg, hup]⟩

/-- Shape of any record stored by a successful `updateCharacter`: the looked
up character with the truthy text fields merged, possibly replaced image
URLs, and a refreshed `updatedAt`. -/
theorem updateCharacter_saved_shape (cdnBaseUrl baseUrl : String) (req : UpdateReq)
    (c0 : Character) (pEnv bEnv : AttemptEnv) (tNow : Nat) (c : Character)
    (h : (updateCharacter cdnBaseUrl baseUrl req (some c0) pEnv bEnv tNow).character = some c) :
    ∃ iu bu,
      c = { applyTextFields req c0 with
              imageUrl := iu, backgroundImageUrl := bu, updatedAt := tNow } ∧
      (req.image = none → iu = (applyTextFields req c0).imageUrl) ∧
      (req.backgroundImage = none → bu = (applyTextFields req c0).backgroundImageUrl) := by
  cases himg : req.image with
  | none =>
    obtain ⟨bu, _, hchar, hbu⟩ :=
      updateBgAndSave_character cdnBaseUrl baseUrl req (applyTextFields req c0) [] bEnv tNow
    rw [updateCharacter, himg, hchar, Option.some.injEq] at h
    exact ⟨(applyTextFields req c0).imageUrl, bu, by rw [← h], fun _ => rfl, hbu⟩
  | some imgPath =>
    rw [updateCharacter, himg] at h
    rcases hup : uploadWithFallback cdnBaseUrl baseUrl (applyTextFields req c0).id false pEnv
      with ⟨u, evs⟩
    rw [hup] at h
    cases u with
    | none => simp at h
    | some url =>
      obtain ⟨bu, _, hchar, hbu⟩ :=
        updateBgAndSave_character cdnBaseUrl baseUrl req
          { applyTextFields req c0 with imageUrl := url }
          (evs ++ [Ev.unlinkTemp imgPath]) bEnv tNow
      simp only at h
      rw [hchar, Option.some.injEq] at h
      refine ⟨url, bu, by rw [← h], by simp [himg], hbu⟩

/-- C8 (counterexample): the admin soft-delete endpoint mutates the record
(it flips `isActive` from true to false) but leaves `updatedAt` at its old
value 5 — it never reads the clock — so not every mutation refreshes
`updatedAt`. -/
theorem C8_counterexample :
    (adminDeleteCharacter
        (some ⟨"1", "n", "d", "p", "u", none, "a", "t", "", "", "r", [], [], true, 0, 5⟩)).status
        = 200 ∧
    (adminDeleteCharacter
        (some ⟨"1", "n", "d", "p", "u", none, "a", "t", "", "", "r", [], [], true, 0, 5⟩)).character
        = some ⟨"1", "n", "d", "p", "u", none, "a", "t", "", "", "r", [], [], false, 0, 5⟩ := by
  decide

/-- C8 (amended): `updateCharacter` and the public `deleteCharacter` refresh
`updatedAt` to the current time on every record they save, but the admin
controller's soft delete saves the record with `isActive := false` and the
old `updatedAt` unchanged. -/
theorem C8_updatedAt_amended (cdnBaseUrl baseUrl : String) (req : UpdateReq)
    (c0 : Character) (pEnv bEnv : AttemptEnv) (tNow : Nat) :
    (∀ c, (updateCharacter cdnBaseUrl baseUrl req (some c0) pEnv bEnv tNow).character = some c →
      c.updatedAt = tNow) ∧
    (∀ c, (deleteCharacter (some c0) tNow).character = some c →
      c.updatedAt = tNow ∧ c.isActive = false) ∧
    (∀ c, (adminDeleteCharacter (some c0)).character = some c →
      c.updatedAt = c0.updatedAt ∧ c.isActive = false) := by
  refine ⟨?_, ?_, ?_⟩
  · intro c h
    obtain ⟨iu, bu, hc, -, -⟩ :=
      updateCharacter_saved_shape cdnBaseUrl baseUrl req c0 pEnv bEnv tNow c h
    rw [hc]
  · intro c h
    simp only [deleteCharacter, Option.some.injEq] at h
    rw [← h]
    exact ⟨rfl, rfl⟩
  · intro c h
    simp only [adminDeleteCharacter, Option.some.injEq] at h
    rw [← h]
    exact ⟨rfl, rfl⟩

/-- C8 (witness): concrete run of the amended theorem on a character whose
stored `updatedAt` is 5, updated / soft-deleted at time 42. -/
theorem C8_updatedAt_witness :
    (∀ c, (updateCharacter "https://cdn.example.net" "http://localhost:5000"
        ⟨"N", "", "", "", "", "", "", "", none, none, none, none⟩
        (some ⟨"1", "n", "d", "p", "u", none, "a", "t", "", "", "r", [], [], true, 0, 5⟩)
        ⟨true, true, true, 0, 0⟩ ⟨true, true, true, 0, 0⟩ 42).character = some c →
      c.updatedAt = 42) ∧
    (∀ c, (deleteCharacter
        (some ⟨"1", "n", "d", "p", "u", none, "a", "t", "", "", "r", [], [], true, 0, 5⟩)
        42).character = some c → c.updatedAt = 42 ∧ c.isActive = false) ∧
    (∀ c, (adminDeleteCharacter
        (some ⟨"1", "n", "d", "p", "u", none, "a", "t", "", "", "r", [], [], true, 0, 5⟩)).character
        = some c → c.updatedAt = 5 ∧ c.isActive = false) :=
  C8_updatedAt_amended "https://cdn.example.net" "http://localhost:5000"
    ⟨"N", "", "", "", "", "", "", "", none, none, none, none⟩
    ⟨"1", "n", "d", "p", "u", none, "a", "t", "", "", "r", [], [], true, 0, 5⟩
    ⟨true, true, true, 0, 0⟩ ⟨true, true, true, 0, 0⟩ 42

/-- C10: an update with no image files keeps the stored image URLs unchanged
(and answers 200), and — whatever files are sent — every text field that is
absent or falsy in the body keeps its previously stored value, so an update
cannot clear a field to empty. -/
theorem C10_update_frame (cdnBaseUrl baseUrl : String) (req : UpdateReq)
    (c0 : Character) (pEnv bEnv : AttemptEnv) (tNow : Nat) :
    ((req.image = none ∧ req.backgroundImage = none) →
      (updateCharacter cdnBaseUrl baseUrl req (some c0) pEnv bEnv tNow).status = 200 ∧
      ∀ c, (updateCharacter cdnBaseUrl baseUrl req (some c0) pEnv bEnv tNow).character =
          some c → c.imageUrl = c0.imageUrl ∧ c.backgroundImageUrl = c0.backgroundImageUrl) ∧
    (∀ c, (updateCharacter cdnBaseUrl baseUrl req (some c0) pEnv bEnv tNow).character = some c →
      (req.name = "" → c.name = c0.name) ∧
      (req.description = "" → c.description = c0.description) ∧
      (req.personality = "" → c.personality = c0.personality) ∧
      (req.accentColor = "" → c.accentColor = c0.accentColor) ∧
      (req.textColor = "" → c.textColor = c0.textColor) ∧
      (req.age = "" → c.age = c0.age) ∧
      (req.location = "" → c.location = c0.location) ∧
      (req.responseTime = "" → c.responseTime = c0.responseTime) ∧
      (req.traits = none → c.traits = c0.traits) ∧
      (req.interests = none → c.interests = c0.interests)) := by
  constructor
  · rintro ⟨himg, hbg⟩
    constructor
    · obtain ⟨bu, hst, hchar, hbu⟩ :=
        updateBgAndSave_character cdnBaseUrl baseUrl req (applyTextFields req c0) [] bEnv tNow
      rw [updateCharacter, himg]
      exact hst
    · intro c h
      obtain ⟨iu, bu, hc, hiu, hbu⟩ :=
        updateCharacter_saved_shape cdnBaseUrl baseUrl req c0 pEnv bEnv tNow c h
      rw [hc, hiu himg, hbu hbg]
      exact ⟨rfl, rfl⟩
  · intro c h
    obtain ⟨iu, bu, hc, -, -⟩ :=
      updateCharacter_saved_shape cdnBaseUrl baseUrl req c0 pEnv bEnv tNow c h
    subst hc
    refine ⟨fun hf => ?_, fun hf => ?_, fun hf => ?_, fun hf => ?_, fun hf => ?_,
      fun hf => ?_, fun hf => ?_, fun hf => ?_, fun hf => ?_, fun hf => ?_⟩ <;>
      simp [applyTextFields, hf]

/-- C10 (witness): an update with empty text fields and no files at time 42
keeps every stored field of the character. -/
theorem C10_update_frame_witness :
    ((updateCharacter "https://cdn.example.net" "http://localhost:5000"
        ⟨"", "", "", "", "", "", "", "", none, none, none, none⟩
        (some ⟨"1", "n", "d", "p", "u", some "bg", "a", "t", "21", "x", "r",
          ["kind"], ["tea"], true, 0, 5⟩)
        ⟨true, true, true, 0, 0⟩ ⟨true, true, true, 0, 0⟩ 42).status = 200 ∧
      ∀ c, (updateCharacter "https://cdn.example.net" "http://localhost:5000"
        ⟨"", "", "", "", "", "", "", "", none, none, none, none⟩
        (some ⟨"1", "n", "d", "p", "u", some "bg", "a", "t", "21", "x", "r",
          ["kind"], ["tea"], true, 0, 5⟩)
        ⟨true, true, true, 0, 0⟩ ⟨true, true, true, 0, 0⟩ 42).character = some c →
        c.imageUrl = "u" ∧ c.backgroundImageUrl = some "bg") ∧
    (∀ c, (updateCharacter "https://cdn.example.net" "http://localhost:5000"
        ⟨"", "", "", "", "", "", "", "", none, none, none, none⟩
        (some ⟨"1", "n", "d", "p", "u", some "bg", "a", "t", "21", "x", "r",
          ["kind"], ["tea"], true, 0, 5⟩)
        ⟨true, true, true, 0, 0⟩ ⟨true, true, true, 0, 0⟩ 42).character = some c →
      ("" : String) = "" → c.name = "n") := by
  have h := C10_update_frame "https://cdn.example.net" "http://localhost:5000"
    ⟨"", "", "", "", "", "", "", "", none, none, none, none⟩
    ⟨"1", "n", "d", "p", "u", some "bg", "a", "t", "21", "x", "r",
      ["kind"], ["tea"], true, 0, 5⟩
    ⟨true, true, true, 0, 0⟩ ⟨true, true, true, 0, 0⟩ 42
  exact ⟨h.1 ⟨rfl, rfl⟩, fun c hc _ => ((h.2 c hc).1 rfl)⟩

/-- Bounds for the `inside` / `withoutEnlargement` resize geometry: the
output fits the target box, keeps the aspect ratio, and never exceeds the
source. -/
theorem sharpResize_inside_bounds (tw th : ℚ) (d : Dim)
    (hw : 0 < d.w) (hh : 0 < d.h) (htw : 0 < tw) (hth : 0 < th) :
    (sharpResize Fit.inside true tw th d).w ≤ tw ∧
    (sharpResize Fit.inside true tw th d).h ≤ th ∧
    (sharpResize Fit.inside true tw th d).w * d.h =
      (sharpResize Fit.inside true tw th d).h * d.w ∧
    (sharpResize Fit.inside true tw th d).w ≤ d.w ∧
    (sharpResize Fit.inside true tw th d).h ≤ d.h := by
  have hfW : min (tw / d.w) (th / d.h) ≤ tw / d.w := min_le_left _ _
  have hfH : min (tw / d.w) (th / d.h) ≤ th / d.h := min_le_right _ _
  by_cases hc : 1 < min (tw / d.w) (th / d.h)
  · have hres : sharpResize Fit.inside true tw th d = { w := d.w * 1, h := d.h * 1 } := by
      simp only [sharpResize, Bool.true_and, decide_eq_true_eq, if_pos hc]
    rw [hres]
    have hwtw : d.w < tw := (one_lt_div hw).mp (lt_of_lt_of_le hc hfW)
    have hhth : d.h < th := (one_lt_div hh).mp (lt_of_lt_of_le hc hfH)
    refine ⟨?_, ?_, by ring, ?_, ?_⟩
    · show d.w * 1 ≤ tw
      rw [mul_one]; exact le_of_lt hwtw
    · show d.h * 1 ≤ th
      rw [mul_one]; exact le_of_lt hhth
    · show d.w * 1 ≤ d.w
      rw [mul_one]
    · show d.h * 1 ≤ d.h
      rw [mul_one]
  · have hres : sharpResize Fit.inside true tw th d =
        { w := d.w * min (tw / d.w) (th / d.h), h := d.h * min (tw / d.w) (th / d.h) } := by
      simp only [sharpResize, Bool.true_and, decide_eq_true_eq, if_neg hc]
    rw [hres]
    have hle1 : min (tw / d.w) (th / d.h) ≤ 1 := le_of_not_lt hc
    refine ⟨?_, ?_, by ring, ?_, ?_⟩
    · calc d.w * min (tw / d.w) (th / d.h) ≤ d.w * (tw / d.w) :=
            mul_le_mul_of_nonneg_left hfW (le_of_lt hw)
      _ = tw := by rw [mul_comm, div_mul_cancel₀ _ (ne_of_gt hw)]
    · calc d.h * min (tw / d.w) (th / d.h) ≤ d.h * (th / d.h) :=
            mul_le_mul_of_nonneg_left hfH (le_of_lt hh)
      _ = th := by rw [mul_comm, div_mul_cancel₀ _ (ne_of_gt hh)]
    · calc d.w * min (tw / d.w) (th / d.h) ≤ d.w * 1 :=
            mul_le_mul_of_nonneg_left hle1 (le_of_lt hw)
      _ = d.w := mul_one _
    · calc d.h * min (tw / d.w) (th / d.h) ≤ d.h * 1 :=
            mul_le_mul_of_nonneg_left hle1 (le_of_lt hh)
      _ = d.h := mul_one _

/-- C6: the profile transform outputs exactly the requested box (default
400×400, cover crop); the background transform (fit inside, without
enlargement) never exceeds the requested box (default 1200×800) on either
axis, preserves the source aspect ratio exactly, and never upscales past the
original size. -/
theorem C6_transform_geometry (ow oh : Option ℚ) (d : Dim)
    (hw : 0 < d.w) (hh : 0 < d.h)
    (hW : 0 < jsOrQ ow 1200) (hH : 0 < jsOrQ oh 800) :
    transformDims false ow oh d = { w := jsOrQ ow 400, h := jsOrQ oh 400 } ∧
    ((transformDims true ow oh d).w ≤ jsOrQ ow 1200 ∧
      (transformDims true ow oh d).h ≤ jsOrQ oh 800 ∧
      (transformDims true ow oh d).w * d.h = (transformDims true ow oh d).h * d.w ∧
      (transformDims true ow oh d).w ≤ d.w ∧ (transformDims true ow oh d).h ≤ d.h) := by
  refine ⟨rfl, ?_⟩
  have htd : transformDims true ow oh d =
      sharpResize Fit.inside true (jsOrQ ow 1200) (jsOrQ oh 800) d := rfl
  rw [htd]
  exact sharpResize_inside_bounds (jsOrQ ow 1200) (jsOrQ oh 800) d hw hh hW hH

/-- C6 (witness): a 1600×1200 source with the default options — the profile
output is exactly 400×400 and the background output (1066⅔×800) fits the
1200×800 box, keeps the 4:3 ratio and does not exceed the source. -/
theorem C6_transform_witness :
    transformDims false none none ⟨1600, 1200⟩ = { w := 400, h := 400 } ∧
    ((transformDims true none none ⟨1600, 1200⟩).w ≤ 1200 ∧
      (transformDims true none none ⟨1600, 1200⟩).h ≤ 800 ∧
      (transformDims true none none ⟨1600, 1200⟩).w * 1200 =
        (transformDims true none none ⟨1600, 1200⟩).h * 1600 ∧
      (transformDims true none none ⟨1600, 1200⟩).w ≤ 1600 ∧
      (transformDims true none none ⟨1600, 1200⟩).h ≤ 1200) :=
  C6_transform_geometry none none ⟨1600, 1200⟩
    (by decide) (by decide) (by decide) (by decide)

/-- C7 (counterexample): a non-directory entry named `A.MP4` matches `.mp4`
case-insensitively, yet `listVideos` returns nothing for it — the video
endpoint compares the extension case-sensitively, against the claim. -/
theorem C7_counterexample :
    listVideos "https://cdn.example.net" [⟨"A.MP4", false⟩] = [] ∧
    listingSpec "https://cdn.example.net" [".mp4"] "videos/" [⟨"A.MP4", false⟩] =
      ["https://cdn.example.net/videos/A.MP4"] := by
  decide

/-- C7 (amended): both listing endpoints return, in the backend's listing
order, exactly the non-directory entries whose extension is in the allowed
set — compared case-insensitively for the carousel images, but
case-sensitively for the `.mp4` videos — each mapped to the CDN base URL
concatenated with the prefix and the object name (the hypotheses record that
the prefixed names carry no leading slash, so the URL normalization in
`getCdnUrl` is the plain concatenation). -/
theorem C7_listing_amended (cdnBaseUrl : String) (files : List BunnyFile)
    (himg : ∀ f ∈ files, strStartsWith ("carasouls/" ++ f.ObjectName) "/" = false)
    (hvid : ∀ f ∈ files, strStartsWith ("videos/" ++ f.ObjectName) "/" = false) :
    listImages cdnBaseUrl files = listingSpec cdnBaseUrl imageExtensions "carasouls/" files ∧
    listVideos cdnBaseUrl files = listingSpecCS cdnBaseUrl [".mp4"] "videos/" files := by
  have hjpg : lowerStr ".jpg" = ".jpg" := by decide
  have hjpeg : lowerStr ".jpeg" = ".jpeg" := by decide
  have hpng : lowerStr ".png" = ".png" := by decide
  have hgif : lowerStr ".gif" = ".gif" := by decide
  constructor
  · unfold listImages listingSpec
    rw [List.filter_congr (fun f _ => ?_)]
    · apply List.map_congr_left
      intro f hf
      have hf' := List.mem_of_mem_filter hf
      simp only [getCdnUrl, himg f hf', Bool.false_eq_true, if_false]
      simp only [← String.append_assoc]
    · cases hdir : f.IsDirectory <;>
        simp [imageExtensions, hjpg, hjpeg, hpng, hgif]
  · unfold listVideos listingSpecCS
    rw [List.filter_congr (fun f _ => ?_)]
    · apply List.map_congr_left
      intro f hf
      have hf' := List.mem_of_mem_filter hf
      simp only [getCdnUrl, hvid f hf', Bool.false_eq_true, if_false]
      simp only [← String.append_assoc]
    · cases hdir : f.IsDirectory <;> simp

/-- C7 (witness): a concrete listing with a directory, matching and
non-matching files, mapped in order. -/
theorem C7_listing_witness :
    listImages "https://cdn.example.net"
        [⟨"a.JPG", false⟩, ⟨"sub", true⟩, ⟨"b.png", false⟩, ⟨"v.mp4", false⟩] =
      listingSpec "https://cdn.example.net" imageExtensions "carasouls/"
        [⟨"a.JPG", false⟩, ⟨"sub", true⟩, ⟨"b.png", false⟩, ⟨"v.mp4", false⟩] ∧
    listVideos "https://cdn.example.net"
        [⟨"a.JPG", false⟩, ⟨"sub", true⟩, ⟨"b.png", false⟩, ⟨"v.mp4", false⟩] =
      listingSpecCS "https://cdn.example.net" [".mp4"] "videos/"
        [⟨"a.JPG", false⟩, ⟨"sub", true⟩, ⟨"b.png", false⟩, ⟨"v.mp4", false⟩] :=
  C7_listing_amended "https://cdn.example.net"
    [⟨"a.JPG", false⟩, ⟨"sub", true⟩, ⟨"b.png", false⟩, ⟨"v.mp4", false⟩]
    (by decide) (by decide)

end Gyun
